import Mathlib

/-!
Shallow embedding of `agents/data_aggregator.py` (class `DataAggregator`):
the config loader, the three source fetchers, the sentiment scorer, the
persistence sink and the aggregation driver, together with theorems about
the testable properties of the pipeline.

Texts are modelled as `List Char`, money/indicator values as `ℚ`, dates as
`Nat` (a year for World Bank data, a month index for market data, a day
index for news dates), the filesystem as an association list from paths to
file contents, and the external HTTP/SDK boundaries as oracle parameters.
Python exceptions raised by an upstream call are modelled with `Except`;
the "absent result" convention (`return None`) is `Option`.
-/

namespace DataAggregator

/-- Python `str.lower()` applied characterwise (the keyword texts are ASCII). -/
def pyLower (s : List Char) : List Char := s.map Char.toLower

/-- Python substring test `w in s` on character lists: `w` occurs
contiguously inside `s`. -/
def containsSub (s w : List Char) : Bool :=
  match s with
  | [] => w.isEmpty
  | c :: rest => w.isPrefixOf (c :: rest) || containsSub rest w

/-- The fixed positive keyword set of `_analyze_sentiment`. -/
def positiveKeywords : List (List Char) :=
  ["rise".data, "growth".data, "strong".data, "bullish".data]

/-- The fixed negative keyword set of `_analyze_sentiment`. -/
def negativeKeywords : List (List Char) :=
  ["fall".data, "decline".data, "weak".data, "bearish".data]

/-- `len([w for w in kws if w in t])`: how many keywords of `kws` occur in `t`. -/
def countHits (kws : List (List Char)) (t : List Char) : Nat :=
  (kws.filter (fun w => containsSub t w)).length

/-- `_analyze_sentiment(text)`: 0 for null/empty text, otherwise
`(positive - negative) / max(positive + negative, 1)` where `positive` and
`negative` count the keywords occurring in `str(text).lower()`. -/
def analyze_sentiment (text : Option (List Char)) : ℚ :=
  match text with
  | none => 0
  | some s =>
    if s.isEmpty then 0
    else
      ((countHits positiveKeywords (pyLower s) : ℚ) -
          (countHits negativeKeywords (pyLower s) : ℚ)) /
        max ((countHits positiveKeywords (pyLower s) : ℚ) +
          (countHits negativeKeywords (pyLower s) : ℚ)) 1

/-- The sentiment score as the spec words it (§4.2): count, over a fixed
positive keyword set and a fixed negative keyword set, the keywords that
occur by case-insensitive substring match (standard library list-infix
of the lowercased text), then score `(p - n) / max (p + n) 1`. -/
def sentimentSpec (s : List Char) : ℚ :=
  ((positiveKeywords.countP (fun w => decide (w <:+: pyLower s)) : ℚ) -
      (negativeKeywords.countP (fun w => decide (w <:+: pyLower s)) : ℚ)) /
    max ((positiveKeywords.countP (fun w => decide (w <:+: pyLower s)) : ℚ) +
      (negativeKeywords.countP (fun w => decide (w <:+: pyLower s)) : ℚ)) 1

theorem containsSub_iff (s w : List Char) : containsSub s w = true ↔ w <:+: s := by
  induction s with
  | nil => simp [containsSub, List.infix_nil]
  | cons c rest ih =>
    simp [containsSub, List.infix_cons_iff, List.isPrefixOf_iff_prefix, ih]

theorem countHits_eq_countP (kws : List (List Char)) (t : List Char) :
    countHits kws t = kws.countP (fun w => decide (w <:+: t)) := by
  unfold countHits
  rw [List.countP_eq_length_filter]
  congr 1
  apply List.filter_congr
  intro w _
  cases hc : containsSub t w with
  | false =>
    have hni : ¬ (w <:+: t) := fun h => by
      rw [(containsSub_iff t w).mpr h] at hc
      exact Bool.true_eq_false.mp hc
    simp [hni]
  | true =>
    have hi : w <:+: t := (containsSub_iff t w).mp hc
    simp [hi]

theorem score_bounds (p n : ℕ) :
    -1 ≤ ((p : ℚ) - n) / max ((p : ℚ) + n) 1 ∧
      ((p : ℚ) - n) / max ((p : ℚ) + n) 1 ≤ 1 := by
  have hp : (0 : ℚ) ≤ p := Nat.cast_nonneg p
  have hn : (0 : ℚ) ≤ n := Nat.cast_nonneg n
  have hd1 : (1 : ℚ) ≤ max ((p : ℚ) + n) 1 := le_max_right _ _
  have hdm : ((p : ℚ) + n) ≤ max ((p : ℚ) + n) 1 := le_max_left _ _
  have hd0 : (0 : ℚ) < max ((p : ℚ) + n) 1 := by linarith
  constructor
  · rw [le_div_iff₀ hd0]
    linarith
  · rw [div_le_one hd0]
    linarith

/-- C2: the sentiment score always lies in the closed interval [-1, 1],
and null input text as well as empty input text scores exactly 0. -/
theorem sentiment_bounded_and_zero_on_empty (text : Option (List Char)) :
    (-1 ≤ analyze_sentiment text ∧ analyze_sentiment text ≤ 1) ∧
      analyze_sentiment none = 0 ∧ analyze_sentiment (some []) = 0 := by
  refine ⟨?_, rfl, rfl⟩
  match text with
  | none => constructor <;> norm_num [analyze_sentiment]
  | some s =>
    by_cases h : s.isEmpty
    · constructor <;> norm_num [analyze_sentiment, h]
    · have := score_bounds (countHits positiveKeywords (pyLower s))
        (countHits negativeKeywords (pyLower s))
      constructor <;> simp only [analyze_sentiment, h, if_false, Bool.false_eq_true]
      · exact this.1
      · exact this.2

/-- C3: for non-empty text, `_analyze_sentiment` computes exactly the
keyword-counting score the spec describes: positive and negative counts of
the fixed keyword sets by case-insensitive substring match, combined as
`(positive - negative) / max (positive + negative) 1`. -/
theorem analyze_sentiment_matches_spec (s : List Char) (h : s ≠ []) :
    analyze_sentiment (some s) = sentimentSpec s := by
  have he : s.isEmpty = false := by simp [h]
  simp only [analyze_sentiment, sentimentSpec, he, Bool.false_eq_true, if_false,
    countHits_eq_countP]

theorem analyze_sentiment_matches_spec_witness :
    "Rise and fall".data ≠ [] ∧
      analyze_sentiment (some "Rise and fall".data) = sentimentSpec "Rise and fall".data :=
  ⟨by decide, analyze_sentiment_matches_spec "Rise and fall".data (by decide)⟩

/-- C9: the sentiment score is invariant under re-casing of the input text:
two texts with the same characterwise lowercasing score identically. -/
theorem sentiment_case_invariant (s t : List Char) (h : pyLower s = pyLower t) :
    analyze_sentiment (some s) = analyze_sentiment (some t) := by
  have hlen : s.length = t.length := by
    have h2 := congrArg List.length h
    simpa [pyLower] using h2
  have hemp : s.isEmpty = t.isEmpty := by
    cases s <;> cases t <;> simp_all
  simp only [analyze_sentiment, hemp, h]

theorem sentiment_case_invariant_witness :
    pyLower "GROWTH is Strong".data = pyLower "growth IS strong".data ∧
      analyze_sentiment (some "GROWTH is Strong".data) =
        analyze_sentiment (some "growth IS strong".data) :=
  ⟨by decide, sentiment_case_invariant "GROWTH is Strong".data "growth IS strong".data (by decide)⟩

/-- One entry of the decoded World Bank JSON payload (`response.json()[1]`):
a `date` (modelled as the year) and a possibly-null `value`. -/
structure WBEntry where
  date : Nat
  value : Option ℚ
deriving DecidableEq

/-- The list comprehension of `fetch_worldbank_data`: keep the entries
whose `value` is not null, as `(date, value)` rows, in response order. -/
def wbRows (data : List WBEntry) : List (Nat × ℚ) :=
  data.filterMap (fun e => e.value.map (fun v => (e.date, v)))

/-- Number of null-valued entries in a World Bank response. -/
def wbNullCount (data : List WBEntry) : Nat :=
  (data.filter (fun e => e.value.isNone)).length

/-- Forward-fill lookup: the value carried by the last row whose date is
at most `y`. -/
def ffillAt (rows : List (Nat × ℚ)) (y : Nat) : Option ℚ :=
  ((rows.filter (fun r => r.1 ≤ y)).getLast?).map (fun r => r.2)

/-- `.asfreq('AS').ffill()` over a sorted year index: reindex to every
year from the first to the last index entry, forward-filling gaps. -/
def wbResample (rows : List (Nat × ℚ)) : List (Nat × Option ℚ) :=
  match rows.head?, rows.getLast? with
  | some first, some last =>
    (List.range (last.1 - first.1 + 1)).map
      (fun i => (first.1 + i, ffillAt rows (first.1 + i)))
  | _, _ => []

/-- `fetch_worldbank_data(indicator, country_code)`: any network or parse
exception is caught and `None` is returned; otherwise the non-null rows
get a sorted date index and are resampled annually with forward fill.
Two degenerate successes also land in the exception handler: an all-null
or empty payload (pandas `set_index` on a columnless empty frame raises
`KeyError`) and a duplicated date index (pandas `asfreq` raises
`ValueError`); both therefore yield `None` as well. -/
def fetch_worldbank_data (resp : Except String (List WBEntry)) :
    Option (List (Nat × Option ℚ)) :=
  match resp with
  | .error _ => none
  | .ok data =>
    let rows := wbRows data
    if rows.isEmpty then none
    else
      let sorted := rows.mergeSort (fun a b => decide (a.1 ≤ b.1))
      if decide (sorted.map (fun r => r.1)).Nodup then some (wbResample sorted)
      else none

theorem wbRows_length_add (data : List WBEntry) :
    (wbRows data).length + wbNullCount data = data.length := by
  induction data with
  | nil => rfl
  | cons e rest ih =>
    cases hv : e.value <;>
      simp [wbRows, wbNullCount, List.filterMap_cons, List.filter_cons, hv] at ih ⊢ <;>
      omega

/-- C5: every null-valued entry of a World Bank response is excluded from
the constructed table — before resampling, the row count equals the entry
count minus the number of null-valued entries — and any network or parse
exception makes `fetch_worldbank_data` return the absent result. -/
theorem worldbank_filters_nulls_and_absorbs_errors (resp : Except String (List WBEntry)) :
    (∀ e, resp = .error e → fetch_worldbank_data resp = none) ∧
      (∀ data, resp = .ok data →
        wbNullCount data ≤ data.length ∧
          (wbRows data).length = data.length - wbNullCount data) := by
  constructor
  · intro e he
    rw [he]
    rfl
  · intro data _
    have h := wbRows_length_add data
    omega

theorem worldbank_filters_nulls_witness :
    fetch_worldbank_data (.error "connection timed out") = none ∧
      (wbRows [⟨2013, some 5⟩, ⟨2014, none⟩, ⟨2015, some 7⟩]).length =
        3 - wbNullCount [⟨2013, some 5⟩, ⟨2014, none⟩, ⟨2015, some 7⟩] :=
  ⟨(worldbank_filters_nulls_and_absorbs_errors (.error "connection timed out")).1
      "connection timed out" rfl,
    ((worldbank_filters_nulls_and_absorbs_errors
        (.ok [⟨2013, some 5⟩, ⟨2014, none⟩, ⟨2015, some 7⟩])).2
      [⟨2013, some 5⟩, ⟨2014, none⟩, ⟨2015, some 7⟩] rfl).2⟩

/-- A Python value passed as the `symbol` argument of
`fetch_yahoo_finance`: either a string, or a value of some other type
(for which `isinstance(symbol, str)` is false). -/
inductive SymbolArg where
  | str (s : String)
  | nonStr
deriving DecidableEq

/-- Last non-null close among the rows of month `m` (the pandas resampler
method `.last()` takes the last non-NaN value of each group). -/
def monthLast (rows : List (Nat × Option ℚ)) (m : Nat) : Option ℚ :=
  ((rows.filter (fun r => r.1 == m)).filterMap (fun r => r.2)).getLast?

/-- `df[['Close']].resample('M').last()` over a month-indexed close
column, then `.dropna()`: one row per month from the first to the last
month present, keeping only months with a non-null close. -/
def yfClean (rows : List (Nat × Option ℚ)) : List (Nat × ℚ) :=
  match (rows.map (fun r => r.1)).min?, (rows.map (fun r => r.1)).max? with
  | some lo, some hi =>
    (List.range (hi - lo + 1)).filterMap
      (fun i => (monthLast rows (lo + i)).map (fun v => (lo + i, v)))
  | _, _ => []

/-- `fetch_yahoo_finance(symbol)`: validates that the symbol is a string
of length at least 2 before any external call (an invalid symbol raises,
the handler returns `None`); fetches the 10-year monthly history; an
empty history raises and the handler returns `None`; otherwise keeps the
close column, resamples monthly and drops gaps.  The boolean component
records whether the external market-data API was called. -/
def fetch_yahoo_finance (symbol : SymbolArg) (hist : String → List (Nat × Option ℚ)) :
    Option (List (Nat × ℚ)) × Bool :=
  match symbol with
  | .nonStr => (none, false)
  | .str s =>
    if s.length < 2 then (none, false)
    else
      let df := hist s
      if df.isEmpty then (none, true)
      else (some (yfClean df), true)

/-- C6: a symbol that is not a string, or a string shorter than 2
characters, makes `fetch_yahoo_finance` return the absent result without
calling the external market-data API; an empty history from the external
call also yields the absent result (after the call) instead of raising. -/
theorem yahoo_validates_and_absorbs_empty (symbol : SymbolArg)
    (hist : String → List (Nat × Option ℚ)) :
    (symbol = .nonStr → fetch_yahoo_finance symbol hist = (none, false)) ∧
      (∀ s, symbol = .str s → s.length < 2 →
        fetch_yahoo_finance symbol hist = (none, false)) ∧
      (∀ s, symbol = .str s → 2 ≤ s.length → hist s = [] →
        fetch_yahoo_finance symbol hist = (none, true)) := by
  refine ⟨?_, ?_, ?_⟩
  · intro h
    rw [h]
    rfl
  · intro s hs hlen
    rw [hs]
    simp [fetch_yahoo_finance, hlen]
  · intro s hs hlen hempty
    rw [hs]
    have : ¬ s.length < 2 := by omega
    simp [fetch_yahoo_finance, this, hempty]

theorem yahoo_validates_witness :
    fetch_yahoo_finance (.str "A") (fun _ => []) = (none, false) ∧
      fetch_yahoo_finance .nonStr (fun _ => []) = (none, false) ∧
      fetch_yahoo_finance (.str "AAPL") (fun _ => []) = (none, true) :=
  ⟨(yahoo_validates_and_absorbs_empty (.str "A") (fun _ => [])).2.1 "A" rfl (by decide),
    (yahoo_validates_and_absorbs_empty .nonStr (fun _ => [])).1 rfl,
    (yahoo_validates_and_absorbs_empty (.str "AAPL") (fun _ => [])).2.2 "AAPL" rfl
      (by decide) rfl⟩

/-- One article of a news API response.  `publishedAt`, `title` and
`content` model the `art.get(...)` results (`none` is Python `None`);
`source` distinguishes a missing `source` key (`none`, for which the
`{}` default makes the name "unknown"), a null source (`some none`, on
which `.get("name")` raises `AttributeError`), and a named source. -/
structure Article where
  publishedAt : Option String
  title : Option String
  content : Option String
  source : Option (Option String)
deriving DecidableEq

/-- A row of the assembled news table. -/
structure NewsRow where
  date : Option Nat
  title : Option String
  sentiment : ℚ
  source : String
deriving DecidableEq

/-- The body of the `for art in articles` loop: build the row dict for one
article; any exception while building it (an unparseable `publishedAt`, a
null `source`) skips just this article.  `parseDate` is the opaque
`pd.to_datetime` boundary (`none` = the parse raises); a null
`publishedAt` parses to `NaT`, modelled as a `none` date. -/
def processArticle (parseDate : String → Option Nat) (a : Article) : Option NewsRow :=
  let date? : Option (Option Nat) :=
    match a.publishedAt with
    | none => some none
    | some s => (parseDate s).map some
  match date?, a.source with
  | none, _ => none
  | some _, some none => none
  | some d, none =>
    some ⟨d, a.title, analyze_sentiment (a.content.map String.data), "unknown"⟩
  | some d, some (some nm) =>
    some ⟨d, a.title, analyze_sentiment (a.content.map String.data), nm⟩

/-- `drop_duplicates()`: keep the first occurrence of every row. -/
def dedupKeepFirst (l : List NewsRow) : List NewsRow :=
  l.foldl (fun acc x => if x ∈ acc then acc else acc ++ [x]) []

/-- A decoded news API response body. -/
structure NewsResponse where
  status : String
  articles : List Article

/-- `fetch_news_sentiment(country)`: a missing or empty API key raises
before the HTTP request and the handler returns `None`; a transport error
or a non-"ok" status also yields `None`; otherwise each article is
processed (malformed ones skipped) and the assembled table is
deduplicated.  The boolean component records whether the HTTP request to
the news API was issued. -/
def fetch_news_sentiment (api_keys : List (String × String))
    (parseDate : String → Option Nat) (resp : Except String NewsResponse) :
    Option (List NewsRow) × Bool :=
  let api_key := (api_keys.lookup "news_api").getD ""
  if api_key = "" then (none, false)
  else
    match resp with
    | .error _ => (none, true)
    | .ok rd =>
      if rd.status = "ok" then
        (some (dedupKeepFirst (rd.articles.filterMap (processArticle parseDate))), true)
      else (none, true)

theorem dedup_foldl_length (l acc : List NewsRow) :
    (l.foldl (fun acc x => if x ∈ acc then acc else acc ++ [x]) acc).length ≤
      acc.length + l.length := by
  induction l generalizing acc with
  | nil => simp
  | cons x xs ih =>
    simp only [List.foldl_cons, List.length_cons]
    by_cases h : x ∈ acc
    · rw [if_pos h]
      have h2 := ih acc
      omega
    · rw [if_neg h]
      have h2 := ih (acc ++ [x])
      have h3 : (acc ++ [x]).length = acc.length + 1 := by simp
      omega

theorem dedupKeepFirst_length (l : List NewsRow) :
    (dedupKeepFirst l).length ≤ l.length := by
  have := dedup_foldl_length l []
  simpa [dedupKeepFirst] using this

/-- C7: on a successful news response, a malformed article is skipped on
its own — the assembled table is the one of the response without that
article — and after deduplication the returned table has at most as many
rows as the response has articles. -/
theorem news_skips_bad_article_and_dedups (api_keys : List (String × String))
    (parseDate : String → Option Nat) (l1 l2 : List Article) (bad : Article)
    (hkey : (api_keys.lookup "news_api").getD "" ≠ "")
    (hbad : processArticle parseDate bad = none) :
    fetch_news_sentiment api_keys parseDate (.ok ⟨"ok", l1 ++ bad :: l2⟩) =
        (some (dedupKeepFirst ((l1 ++ l2).filterMap (processArticle parseDate))), true) ∧
      ∀ rows, fetch_news_sentiment api_keys parseDate (.ok ⟨"ok", l1 ++ bad :: l2⟩) =
          (some rows, true) → rows.length ≤ (l1 ++ bad :: l2).length := by
  have hmain : fetch_news_sentiment api_keys parseDate (.ok ⟨"ok", l1 ++ bad :: l2⟩) =
      (some (dedupKeepFirst ((l1 ++ l2).filterMap (processArticle parseDate))), true) := by
    simp [fetch_news_sentiment, hkey, List.filterMap_append, List.filterMap_cons, hbad]
  refine ⟨hmain, ?_⟩
  intro rows hrows
  rw [hmain] at hrows
  have hr : rows = dedupKeepFirst ((l1 ++ l2).filterMap (processArticle parseDate)) := by
    have := congrArg Prod.fst hrows
    simpa using this.symm
  rw [hr]
  calc (dedupKeepFirst ((l1 ++ l2).filterMap (processArticle parseDate))).length
      ≤ ((l1 ++ l2).filterMap (processArticle parseDate)).length :=
        dedupKeepFirst_length _
    _ ≤ (l1 ++ l2).length := List.length_filterMap_le _ _
    _ ≤ (l1 ++ bad :: l2).length := by
        simp only [List.length_append, List.length_cons]
        omega

/-- The well-formed article of the C7 witness scenario. -/
def goodArticle : Article := ⟨none, some "t", some "strong growth", some (some "src")⟩

/-- The malformed article of the C7 witness scenario: its `publishedAt`
does not parse. -/
def badArticle : Article := ⟨some "not-a-date", none, none, none⟩

theorem news_skips_bad_article_witness :
    fetch_news_sentiment [("news_api", "k1234")] (fun _ => none)
        (.ok ⟨"ok", [goodArticle] ++ badArticle :: []⟩) =
      (some (dedupKeepFirst (([goodArticle] ++ ([] : List Article)).filterMap
        (processArticle (fun _ => none)))), true) :=
  (news_skips_bad_article_and_dedups [("news_api", "k1234")] (fun _ => none)
    [goodArticle] [] badArticle (by decide) rfl).1

/-- C10: a missing or empty configured news API key makes
`fetch_news_sentiment` return the absent result without issuing any HTTP
request to the news API. -/
theorem news_requires_api_key (api_keys : List (String × String))
    (parseDate : String → Option Nat) (resp : Except String NewsResponse)
    (hkey : (api_keys.lookup "news_api").getD "" = "") :
    fetch_news_sentiment api_keys parseDate resp = (none, false) := by
  simp [fetch_news_sentiment, hkey]

theorem news_requires_api_key_witness :
    fetch_news_sentiment [] (fun _ => none) (.ok ⟨"ok", []⟩) = (none, false) :=
  news_requires_api_key [] (fun _ => none) (.ok ⟨"ok", []⟩) rfl

/-- A normalized dataframe as the sink sees it: named value columns and
rows of (date-index entry, cells).  `df.empty` is "no rows". -/
structure Table where
  cols : List String
  rows : List (String × List String)
deriving DecidableEq

/-- `df.to_csv(path, index=True)`: a header line with the index and the
column names, then one line per row, the index entry first. -/
def toCsv (t : Table) : String :=
  String.intercalate "," ("date" :: t.cols) ++ "\n" ++
    String.intercalate "\n" (t.rows.map (fun r => String.intercalate "," (r.1 :: r.2)))

/-- The filesystem: paths associated to file contents; a write prepends
and lookup returns the most recent write. -/
abbrev FS := List (String × String)

def fsWrite (fs : FS) (path content : String) : FS := (path, content) :: fs

/-- `self.data_dir`. -/
def data_dir : String := "data"

/-- `_save_data(df, filename)`: when the table is present and non-empty,
write it as CSV (index included) under `<data_dir>/raw/<filename>` and
return True; otherwise return False without touching the filesystem. -/
def save_data (df : Option Table) (filename : String) (fs : FS) : Bool × FS :=
  match df with
  | none => (false, fs)
  | some t =>
    if t.rows.isEmpty then (false, fs)
    else (true, fsWrite fs (data_dir ++ "/raw/" ++ filename) (toCsv t))

/-- C1: the sink creates no file and returns False on an absent or empty
table; on a non-empty table it returns True and the target path holds the
CSV rendering (header plus date index) of the table. -/
theorem save_data_contract (df : Option Table) (filename : String) (fs : FS) :
    (df = none → save_data df filename fs = (false, fs)) ∧
      (∀ t, df = some t → t.rows = [] → save_data df filename fs = (false, fs)) ∧
      (∀ t, df = some t → t.rows ≠ [] →
        save_data df filename fs =
            (true, fsWrite fs (data_dir ++ "/raw/" ++ filename) (toCsv t)) ∧
          (save_data df filename fs).2.lookup (data_dir ++ "/raw/" ++ filename) =
            some (toCsv t)) := by
  refine ⟨?_, ?_, ?_⟩
  · intro h
    rw [h]
    rfl
  · intro t ht hrows
    rw [ht]
    simp [save_data, hrows]
  · intro t ht hrows
    rw [ht]
    have he : t.rows.isEmpty = false := by
      simpa [List.isEmpty_iff] using hrows
    constructor
    · simp [save_data, he]
    · simp [save_data, he, fsWrite, List.lookup]

theorem save_data_contract_witness :
    save_data none "brazil_gdp.csv" [] = (false, []) ∧
      save_data (some ⟨["value"], []⟩) "brazil_gdp.csv" [] = (false, []) ∧
      save_data (some ⟨["value"], [("2013-01-01", ["5"])]⟩) "brazil_gdp.csv" [] =
        (true, fsWrite [] (data_dir ++ "/raw/" ++ "brazil_gdp.csv")
          (toCsv ⟨["value"], [("2013-01-01", ["5"])]⟩)) :=
  ⟨(save_data_contract none "brazil_gdp.csv" []).1 rfl,
    (save_data_contract (some ⟨["value"], []⟩) "brazil_gdp.csv" []).2.1 ⟨["value"], []⟩ rfl rfl,
    ((save_data_contract (some ⟨["value"], [("2013-01-01", ["5"])]⟩) "brazil_gdp.csv" []).2.2
      ⟨["value"], [("2013-01-01", ["5"])]⟩ rfl (by decide)).1⟩

/-- A configured country entry of `settings.yaml`. -/
structure Country where
  name : String
  wb_code : String
  stock_index : String

/-- The settings mapping: keys to lists of country entries (the only key
the driver ever reads is "countries"). -/
abbrev Settings := List (String × List Country)

/-- `_load_yaml(filename)`: the parsed mapping, or `{}` when opening or
parsing raised (the error is logged, not re-raised). -/
def load_yaml (file : Except String Settings) : Settings :=
  match file with
  | .ok s => s
  | .error _ => []

/-- Python subscript `d["k"]`: the value, or a raised `KeyError k`. -/
def dictGet (d : Settings) (k : String) : Except String (List Country) :=
  match d.lookup k with
  | some v => .ok v
  | none => .error k

/-- The external boundaries of one run: the World Bank endpoint keyed by
(indicator, country code), the market-data history keyed by symbol, the
news endpoint keyed by country name, and the date parser. -/
structure Oracle where
  wb : String → String → Except String (List WBEntry)
  yfHist : String → List (Nat × Option ℚ)
  news : String → Except String NewsResponse
  parseDate : String → Option Nat

/-- Decimal-free rendering of a rational for CSV cells. -/
def ratStr (q : ℚ) : String := toString q.num ++ "/" ++ toString q.den

/-- Render a World Bank table for the sink. -/
def wbToTable (t : List (Nat × Option ℚ)) : Table :=
  ⟨["value"], t.map (fun r =>
    (toString r.1, [match r.2 with | none => "" | some v => ratStr v]))⟩

/-- Render a market-price table for the sink. -/
def yfToTable (t : List (Nat × ℚ)) : Table :=
  ⟨["close"], t.map (fun r => (toString r.1, [ratStr r.2]))⟩

/-- Render a news-sentiment table for the sink. -/
def newsToTable (t : List NewsRow) : Table :=
  ⟨["title", "sentiment", "source"], t.map (fun r =>
    ((match r.date with | none => "NaT" | some d => toString d),
      [r.title.getD "", ratStr r.sentiment, r.source]))⟩

/-- One fetch-and-sink statement of the per-country loop body. -/
inductive Step where
  | gdp (country : String)
  | cpi (country : String)
  | stock (country : String)
  | sentiment (country : String)
deriving DecidableEq

/-- The body of the `for country in self.settings["countries"]` loop: the
four fetch-and-sink statements in source order, threading the filesystem.
Returns the executed steps and the resulting filesystem. -/
def processCountry (o : Oracle) (api_keys : List (String × String)) (c : Country)
    (fs : FS) : List Step × FS :=
  let r1 := save_data ((fetch_worldbank_data (o.wb "NY.GDP.MKTP.CD" c.wb_code)).map wbToTable)
    (c.name ++ "_gdp.csv") fs
  let r2 := save_data ((fetch_worldbank_data (o.wb "FP.CPI.TOTL.ZG" c.wb_code)).map wbToTable)
    (c.name ++ "_cpi.csv") r1.2
  let r3 := save_data (((fetch_yahoo_finance (.str c.stock_index) o.yfHist).1).map yfToTable)
    (c.name ++ "_stock.csv") r2.2
  let r4 := save_data
    (((fetch_news_sentiment api_keys o.parseDate (o.news c.name)).1).map newsToTable)
    (c.name ++ "_sentiment.csv") r3.2
  ([.gdp c.name, .cpi c.name, .stock c.name, .sentiment c.name], r4.2)

/-- The `for` loop over the configured countries. -/
def runCountries (o : Oracle) (api_keys : List (String × String)) (cs : List Country)
    (start : List Step × FS) : List Step × FS :=
  cs.foldl (fun acc c =>
    let r := processCountry o api_keys c acc.2
    (acc.1 ++ r.1, r.2)) start

/-- `aggregate_data()`: look up `settings["countries"]` (a missing key
raises `KeyError`, modelled as `.error`), then run the four
fetch-and-sink steps for every country in order.  Returns the executed
steps and the final filesystem. -/
def aggregate_data (settings : Settings) (api_keys : List (String × String))
    (o : Oracle) (fs : FS) : Except String (List Step × FS) :=
  match dictGet settings "countries" with
  | .error k => .error k
  | .ok cs => .ok (runCountries o api_keys cs ([], fs))

/-- All four steps for every configured country, in configuration order. -/
def fullTrace (cs : List Country) : List Step :=
  cs.flatMap (fun c => [.gdp c.name, .cpi c.name, .stock c.name, .sentiment c.name])

theorem runCountries_trace (o : Oracle) (api_keys : List (String × String))
    (cs : List Country) (acc : List Step) (fs : FS) :
    (runCountries o api_keys cs (acc, fs)).1 = acc ++ fullTrace cs := by
  induction cs generalizing acc fs with
  | nil => simp [runCountries, fullTrace]
  | cons c rest ih =>
    simp only [runCountries, fullTrace, List.foldl_cons, List.flatMap_cons] at ih ⊢
    rw [ih]
    simp [List.append_assoc, processCountry]

/-- C4: whatever the oracles return — in particular when any fetch step
for any country yields the absent result — the driver executes all four
fetch-and-sink steps of every configured country: the executed trace is
exactly the full trace of the configuration, and the run completes. -/
theorem aggregate_runs_all_steps (settings : Settings) (cs : List Country)
    (api_keys : List (String × String)) (o : Oracle) (fs : FS)
    (h : dictGet settings "countries" = .ok cs) :
    aggregate_data settings api_keys o fs =
      .ok (fullTrace cs, (runCountries o api_keys cs ([], fs)).2) := by
  unfold aggregate_data
  rw [h]
  refine congrArg Except.ok ?_
  rw [Prod.ext_iff]
  refine ⟨?_, rfl⟩
  simpa using runCountries_trace o api_keys cs [] fs

/-- An oracle on which every upstream call fails or returns nothing. -/
def downOracle : Oracle :=
  ⟨fun _ _ => .error "down", fun _ => [], fun _ => .error "down", fun _ => none⟩

/-- The one-country configuration of the spec's example scenario. -/
def brazilSettings : Settings := [("countries", [⟨"brazil", "BRA", "^BVSP"⟩])]

theorem aggregate_runs_all_steps_witness :
    aggregate_data brazilSettings [] downOracle [] =
      .ok (fullTrace [⟨"brazil", "BRA", "^BVSP"⟩],
        (runCountries downOracle [] [⟨"brazil", "BRA", "^BVSP"⟩] ([], [])).2) :=
  aggregate_runs_all_steps brazilSettings [⟨"brazil", "BRA", "^BVSP"⟩] [] downOracle [] rfl

/-- C8 counterexample: with the settings file missing, `_load_yaml` does
return the empty mapping, but the pipeline run with that empty
configuration does not continue: `aggregate_data` raises a `KeyError` on
"countries" instead of completing. -/
theorem config_failure_crashes_driver :
    load_yaml (.error "missing settings.yaml") = [] ∧
      ¬ ∃ out, aggregate_data (load_yaml (.error "missing settings.yaml")) [] downOracle [] =
        .ok out := by
  refine ⟨rfl, ?_⟩
  rintro ⟨out, h⟩
  simp [aggregate_data, load_yaml, dictGet, List.lookup] at h

/-- C8 (amended): a missing or malformed configuration file makes
`_load_yaml` return the empty mapping instead of raising; but running
`aggregate_data` with that empty settings mapping raises a key-lookup
error on "countries" (crashing the run) rather than continuing. -/
theorem config_failure_empty_then_keyerror (e : String)
    (api_keys : List (String × String)) (o : Oracle) (fs : FS) :
    load_yaml (.error e) = [] ∧
      aggregate_data (load_yaml (.error e)) api_keys o fs = .error "countries" :=
  ⟨rfl, rfl⟩

end DataAggregator
